import Mathlib

/-!
Verification of the edge-node event/clip delivery pipeline
(`edge_node/db/manager.py`, `edge_node/services/vss_uploader.py`,
`edge_node/services/vss_aggregator.py`, `edge_node/services/vss_sync.py`).

The Python source is shallowly embedded: the SQLite tables become lists of
rows, SQLAlchemy update statements become pure functions on the database
value, and the uploader's network protocol becomes a trace of actions
parameterised by an environment describing the outcome of each HTTP step.
-/

namespace VSS

/-- A row of the `events` table (`db/manager.py`, class `Event`). -/
structure EventRow where
  event_id : String
  json : String
  status : String
  created_at : Nat
  updated_at : Nat
deriving Repr, DecidableEq

/-- A row of the `pending_uploads` table (`db/manager.py`, class `PendingUpload`).
`attempts` is an SQL `INTEGER NOT NULL`; `checksum` and `final_url` are
nullable columns, hence `Option`. -/
structure PendingUploadRow where
  upload_id : String
  event_id : String
  filepath : String
  attempts : Int
  last_attempt_ts : Option Nat
  status : String
  checksum : Option String
  final_url : Option String
deriving Repr, DecidableEq

/-- The local store: the two tables the claims are about. -/
structure DB where
  events : List EventRow
  pending_uploads : List PendingUploadRow
deriving Repr, DecidableEq

/-- The keyword arguments accepted by `DBManager.update_upload_status`.
The outer `Option` records whether the keyword was passed at all; the inner
`Option` is the SQL value (so `some none` means an explicit SQL `NULL`).
The Uploader passes at most one of them with a non-null value; the
Aggregator endpoint passes all three, null or not. -/
structure UpdateKwargs where
  checksum : Option (Option String)
  final_url : Option (Option String)
  attempts : Option (Option Int)
deriving Repr, DecidableEq

/-- No keyword argument passed (`update_upload_status(uid, "FAILED")`). -/
def noKwargs : UpdateKwargs := ⟨none, none, none⟩

/-- Only `checksum=<c>` passed (the `PROCESSING` transition in
`Uploader.process_upload`). -/
def kwChecksum (c : String) : UpdateKwargs := ⟨some (some c), none, none⟩

/-- Only `final_url=<u>` passed (the `UPLOADED` transition in
`Uploader.process_upload`). -/
def kwFinalUrl (u : String) : UpdateKwargs := ⟨none, some (some u), none⟩

/-- Only `attempts=<a>` passed (`Uploader._handle_failure`). -/
def kwAttempts (a : Int) : UpdateKwargs := ⟨none, none, some (some a)⟩

/-- Effect of the compiled `UPDATE pending_uploads SET status=…,
last_attempt_ts=now(), **kwargs` on one matched row. -/
def applyRow (r : PendingUploadRow) (status : String) (now : Nat)
    (kw : UpdateKwargs) : PendingUploadRow :=
  { r with
    status := status
    last_attempt_ts := some now
    checksum := kw.checksum.getD r.checksum
    final_url := kw.final_url.getD r.final_url
    attempts :=
      match kw.attempts with
      | some (some a) => a
      | _ => r.attempts }

/-- The successful path of `DBManager.update_upload_status`: the single
`UPDATE … WHERE upload_id == uid` statement, followed by the mirror update
of the companion `Event` row when the new status is terminal.  The mirror
re-reads the (already updated) upload row by primary key inside the same
session; if no row has the given id, nothing is mirrored. -/
def applyUpdate (db : DB) (uid status : String) (now : Nat)
    (kw : UpdateKwargs) : DB :=
  let pus := db.pending_uploads.map
    (fun r => if r.upload_id == uid then applyRow r status now kw else r)
  let evs :=
    if status == "UPLOADED" || status == "FAILED" then
      match pus.find? (fun r => r.upload_id == uid) with
      | some u =>
          db.events.map (fun e =>
            if e.event_id == u.event_id then
              { e with status := status, updated_at := now }
            else e)
      | none => db.events
    else db.events
  ⟨evs, pus⟩

/-- `DBManager.update_upload_status`.  Passing `attempts=None` while a row
matches violates the `NOT NULL` constraint on `pending_uploads.attempts`,
so SQLite raises at `session.execute` and the session rolls back; every
other combination commits. -/
def update_upload_status (db : DB) (uid status : String) (now : Nat)
    (kw : UpdateKwargs) : Except String DB :=
  if kw.attempts = some Option.none
      ∧ db.pending_uploads.any (fun r => r.upload_id == uid) then
    Except.error "IntegrityError: NOT NULL constraint failed: pending_uploads.attempts"
  else
    Except.ok (applyUpdate db uid status now kw)

/-- `DBManager.insert_event`: the atomic two-row insert; the local upload id
is derived from the event id. -/
def insert_event (db : DB) (event_id json clip_path : String) (now : Nat) :
    DB × String × String :=
  let upload_id := "upload-" ++ event_id
  let ev : EventRow := ⟨event_id, json, "PENDING_UPLOAD", now, now⟩
  let up : PendingUploadRow :=
    ⟨upload_id, event_id, clip_path, 0, none, "PENDING_UPLOAD", none, none⟩
  (⟨db.events ++ [ev], db.pending_uploads ++ [up]⟩, event_id, upload_id)

/-- `DBManager.get_pending_uploads`: the rows with status `PENDING_UPLOAD`,
up to `limit`. -/
def get_pending_uploads (db : DB) (limit : Nat) : List PendingUploadRow :=
  (db.pending_uploads.filter (fun r => r.status == "PENDING_UPLOAD")).take limit

/-- The status pattern `^(PROCESSING|FAILED|UPLOADED)$` enforced by the
Aggregator's pydantic `StatusUpdate` model. -/
def allowedMarkStatus (s : String) : Bool :=
  s == "PROCESSING" || s == "FAILED" || s == "UPLOADED"

/-- The Aggregator endpoint `POST /events/mark_status`
(`vss_aggregator.py`, `mark_event_status`): after pydantic validation it
forwards the request fields — nulls included — to
`update_upload_status` as keyword arguments. -/
def mark_event_status (db : DB) (now : Nat) (upload_id status : String)
    (final_url checksum : Option String) (attempts : Option Int) :
    Except String DB :=
  if allowedMarkStatus status then
    update_upload_status db upload_id status now
      ⟨some checksum, some final_url, some attempts⟩
  else
    Except.error "422 Unprocessable Entity"

/-- Look up a pending-upload row by primary key. -/
def findUpload (db : DB) (uid : String) : Option PendingUploadRow :=
  db.pending_uploads.find? (fun r => r.upload_id == uid)

/-- Status of the pending-upload row with the given id, if any. -/
def statusOf (db : DB) (uid : String) : Option String :=
  (findUpload db uid).map PendingUploadRow.status

/-- Checksum column of the pending-upload row with the given id, if any. -/
def checksumOf (db : DB) (uid : String) : Option (Option String) :=
  (findUpload db uid).map PendingUploadRow.checksum

/-- Attempts column of the pending-upload row with the given id, if any. -/
def attemptsOf (db : DB) (uid : String) : Option Int :=
  (findUpload db uid).map PendingUploadRow.attempts

/-- Status of the event row with the given id, if any. -/
def eventStatusOf (db : DB) (eid : String) : Option String :=
  (db.events.find? (fun e => e.event_id == eid)).map EventRow.status

/-! ### Uploader (`services/vss_uploader.py`) -/

/-- The `upload:` section of the device configuration used by the Uploader.
`retry_backoff_seconds` is kept rational because the jitter term
`random.random() * retry_backoff_seconds` is a float in the source. -/
structure UploadCfg where
  max_retries : Int
  retry_backoff_seconds : ℚ
deriving Repr, DecidableEq

/-- Python truthiness of an optional string field pulled out of a JSON
response: absent (`None`) and the empty string are falsy. -/
def truthy (v : Option String) : Bool :=
  match v with
  | none => false
  | some s => s != ""

/-- Split a character list at every occurrence of the separator
(the semantics of `str.split(sep)` on one-character separators). -/
def splitChars (sep : Char) : List Char → List (List Char)
  | [] => [[]]
  | c :: cs =>
    if c = sep then [] :: splitChars sep cs
    else
      match splitChars sep cs with
      | [] => [[c]]
      | r :: rs => (c :: r) :: rs

/-- `Path(p).name`: the last path component. -/
def lastComponentChars (p : List Char) : List Char :=
  (splitChars '/' p).getLastD []

/-- ASCII lower-casing of one character (`str.lower()` on the ASCII
extensions at issue). -/
def charLower (c : Char) : Char :=
  if 65 ≤ c.toNat ∧ c.toNat ≤ 90 then Char.ofNat (c.toNat + 32) else c

/-- `Path(p).suffix` on the name's characters: the extension, dot
included; empty for names with no dot, a leading dot only, or a trailing
dot. -/
def suffixChars (name : List Char) : List Char :=
  let parts := splitChars '.' name
  if parts.length ≤ 1 then []
  else if parts.getLastD [] = [] then []
  else if parts.length = 2 ∧ parts.headD ['x'] = [] then []
  else '.' :: parts.getLastD []

/-- `Path(p).suffix`. -/
def pathSuffix (p : String) : String :=
  ⟨suffixChars (lastComponentChars p.data)⟩

/-- Content type sent in the presign request payload
(`Uploader._request_presigned_url`):
`"video/mp4" if file_path.suffix.lower() == ".mp4" else
"application/octet-stream"`. -/
def presign_content_type (filepath : String) : String :=
  if (pathSuffix filepath).data.map charLower = ".mp4".data then "video/mp4"
  else "application/octet-stream"

/-- The JSON body of a presign response.  Each field is `none` when the key
is absent. -/
structure PresignResponse where
  upload_url : Option String
  final_url : Option String
  upload_id : Option String
deriving Repr, DecidableEq

/-- Outcome of one HTTP step as observed by the `try` block of
`process_upload`: success, `requests.exceptions.HTTPError` carrying
`e.response.status_code`, or any other exception (transport error,
`ValueError`, …), which the catch-all branch maps to code 500. -/
inductive StepOutcome (α : Type) where
  | ok (value : α)
  | httpError (code : Int)
  | exn
deriving Repr, DecidableEq

/-- The externally observable steps of one upload transaction:
the Store updates, the four HTTP requests (with the payload fields the
claims are about), and the backoff sleeps. -/
inductive Action where
  | dbUpdate (uid status : String) (kw : UpdateKwargs)
  | presignPost (eventId contentType : String)
  | putFile (contentTypeHeader checksumHeader : String)
  | completePost (uploadId eventId finalUrl checksum : String)
  | metadataPost (eventId uploadId clipUrl : String)
  | sleepFor (seconds : ℚ)
deriving Repr, DecidableEq

/-- Whether an action is an outbound network request. -/
def Action.isNetwork : Action → Bool
  | .presignPost _ _ => true
  | .putFile _ _ => true
  | .completePost _ _ _ _ => true
  | .metadataPost _ _ _ => true
  | _ => false

/-- Whether an action is a backoff sleep. -/
def Action.isSleep : Action → Bool
  | .sleepFor _ => true
  | _ => false

/-- The environment one call to `process_upload` runs against: whether the
clip file exists, the SHA-256 of its bytes, the outcome of each HTTP step,
whether `_post_metadata` finds the companion event row, and the value drawn
by `random.random()` for the backoff jitter. -/
structure UploadEnv where
  fileExists : Bool
  fileSha256 : String
  presign : StepOutcome PresignResponse
  putRes : StepOutcome Unit
  completeRes : StepOutcome Unit
  eventFound : Bool
  metadataRes : StepOutcome Unit
  rand : ℚ
deriving Repr, DecidableEq

/-- The backoff duration computed in `Uploader._handle_failure`:
`min(retry_backoff_seconds * 2 ** (new_attempts - 1)
     + random.random() * retry_backoff_seconds, 3600)`. -/
def backoff_wait_time (base : ℚ) (new_attempts : Int) (rand : ℚ) : ℚ :=
  min (base * (2 : ℚ) ^ (new_attempts - 1) + rand * base) 3600

/-- `Uploader._handle_failure`: increment attempts; if the new count has
reached `max_retries` mark the row `FAILED`; otherwise a 5xx code sleeps
with exponential backoff and returns the row to `PENDING_UPLOAD`, and any
other code marks it `FAILED`.  All three paths key the update by the local
`upload.upload_id`. -/
def handle_failure (cfg : UploadCfg) (upload : PendingUploadRow)
    (code : Int) (rand : ℚ) : List Action :=
  let new_attempts := upload.attempts + 1
  if cfg.max_retries ≤ new_attempts then
    [Action.dbUpdate upload.upload_id "FAILED" (kwAttempts new_attempts)]
  else if 500 ≤ code then
    [Action.sleepFor (backoff_wait_time cfg.retry_backoff_seconds new_attempts rand),
     Action.dbUpdate upload.upload_id "PENDING_UPLOAD" (kwAttempts new_attempts)]
  else
    [Action.dbUpdate upload.upload_id "FAILED" (kwAttempts new_attempts)]

/-- `Uploader.process_upload`, as the trace of actions it performs.

Mirrors the source line by line: missing file → direct `FAILED` update and
return; otherwise compute the checksum, request the presign (the
server-returned `upload_id`, when present, is used for the Store updates;
the complete and metadata payloads keep reading `upload.upload_id` from the
row object), validate `upload_url`/`final_url` (a falsy one raises
`ValueError`, which the catch-all turns into `_handle_failure(500)`), move
to `PROCESSING` with the checksum, PUT the file with a constant
`Content-Type: video/mp4` header, notify completion, post metadata, and
finally record `UPLOADED` with the `final_url`. -/
def process_upload (cfg : UploadCfg) (upload : PendingUploadRow)
    (env : UploadEnv) : List Action :=
  if env.fileExists = false then
    [Action.dbUpdate upload.upload_id "FAILED" noKwargs]
  else
    let checksum := env.fileSha256
    Action.presignPost upload.event_id (presign_content_type upload.filepath) ::
    match env.presign with
    | .httpError code => handle_failure cfg upload code env.rand
    | .exn => handle_failure cfg upload 500 env.rand
    | .ok resp =>
      let upload_id := resp.upload_id.getD upload.upload_id
      if truthy resp.upload_url = false ∨ truthy resp.final_url = false then
        handle_failure cfg upload 500 env.rand
      else
        let final_url := resp.final_url.getD ""
        Action.dbUpdate upload_id "PROCESSING" (kwChecksum checksum) ::
        Action.putFile "video/mp4" checksum ::
        match env.putRes with
        | .httpError code => handle_failure cfg upload code env.rand
        | .exn => handle_failure cfg upload 500 env.rand
        | .ok _ =>
          Action.completePost upload.upload_id upload.event_id final_url checksum ::
          match env.completeRes with
          | .httpError code => handle_failure cfg upload code env.rand
          | .exn => handle_failure cfg upload 500 env.rand
          | .ok _ =>
            if env.eventFound = false then
              handle_failure cfg upload 500 env.rand
            else
              Action.metadataPost upload.event_id upload.upload_id final_url ::
              match env.metadataRes with
              | .httpError code => handle_failure cfg upload code env.rand
              | .exn => handle_failure cfg upload 500 env.rand
              | .ok _ =>
                [Action.dbUpdate upload_id "UPLOADED" (kwFinalUrl final_url)]

/-- Interpret one action against the store (network actions and sleeps do
not touch it).  The Uploader never passes a null `attempts`, so its updates
never hit the `NOT NULL` error path and the plain `applyUpdate` semantics
applies. -/
def applyAction (db : DB) (now : Nat) : Action → DB
  | .dbUpdate uid status kw => applyUpdate db uid status now kw
  | _ => db

/-- Run a trace against the store. -/
def runActions (db : DB) (now : Nat) (acts : List Action) : DB :=
  acts.foldl (fun d a => applyAction d now a) db

/-! ### Sync worker (`services/vss_sync.py`) -/

/-- One entry of the packages-endpoint response.  Every field is read with
`.get`, so any may be absent. -/
structure PackageManifest where
  pkgId : Option String
  version : Option String
  download_url : Option String
  sha256 : Option String
  signature : Option String
deriving Repr, DecidableEq

/-- The `if not all([...])` guard of `SyncWorker._process_package`
(Python truthiness: absent keys and empty strings fail it). -/
def manifestValid (p : PackageManifest) : Bool :=
  truthy p.pkgId && truthy p.version && truthy p.download_url
    && truthy p.sha256 && truthy p.signature

/-- On-disk and side-effect state touched by one package install: whether
the staging archive `{id}-{version}.tar.gz` is present, whether the
`{model_root}/{id}/` directory exists, the files inside it, and the
versions posted to the CV `_reload` endpoint. -/
structure SyncState where
  stagingPresent : Bool
  installDirExists : Bool
  installedFiles : List String
  reloadPosts : List String
deriving Repr, DecidableEq

/-- Outcome of the streamed download: success, failure before the staging
file was opened, or failure mid-stream leaving a partial staging file. -/
inductive DownloadOutcome where
  | ok
  | failNoFile
  | failPartial
deriving Repr, DecidableEq

/-- Environment of one `_process_package` call: download outcome, result of
the SHA-256 computation (`none` when it raises), whether `extractall`
succeeds and which files it writes (also when it fails partway), and
whether the reload POST succeeds. -/
structure SyncEnv where
  download : DownloadOutcome
  shaResult : Option String
  extractOk : Bool
  extractPartialFiles : List String
  extractedFiles : List String
  reloadOk : Bool
deriving Repr, DecidableEq

/-- `SyncWorker._process_package`, as a state transformer.

Mirrors the source: an invalid manifest returns immediately; a failed
download returns (leaving any partial staging file); a checksum mismatch
unlinks the staging file and returns; an exception during the checksum
computation returns with the staging file still present; signature
verification is stubbed to always succeed; `install_path.mkdir` runs before
extraction, so a failed `extractall` leaves the created directory (with any
partially extracted files) and the staging archive behind; after a
successful extraction the reload POST is attempted and — whether it
succeeds or not — the staging archive is deleted. -/
def process_package (pkg : PackageManifest) (env : SyncEnv)
    (st : SyncState) : SyncState :=
  if manifestValid pkg = false then st
  else
    match env.download with
    | .failNoFile => st
    | .failPartial => { st with stagingPresent := true }
    | .ok =>
      let st1 := { st with stagingPresent := true }
      match env.shaResult with
      | none => st1
      | some computed =>
        if computed != pkg.sha256.getD "" then
          { st1 with stagingPresent := false }
        else
          let st2 := { st1 with installDirExists := true }
          if env.extractOk = false then
            { st2 with installedFiles := st2.installedFiles ++ env.extractPartialFiles }
          else
            let st3 := { st2 with installedFiles := st2.installedFiles ++ env.extractedFiles }
            let st4 := { st3 with reloadPosts := st3.reloadPosts ++ [pkg.version.getD ""] }
            { st4 with stagingPresent := false }

/-! ### Concrete fixtures, mirroring the repository's integration test
(`tests/edge_integration/test_uploader_integration.py` and
`mock_central_server.py`). -/

/-- Upload configuration with `max_retries=3`, `retry_backoff_seconds=1`. -/
def cfg0 : UploadCfg := ⟨3, 1⟩

/-- Upload configuration with a backoff base larger than the 3600 s cap. -/
def cfgBig : UploadCfg := ⟨10, 4000⟩

/-- The store after inserting the integration test's event: one `Event`
row and one `PendingUpload` row, both `PENDING_UPLOAD`, with the local
upload id `upload-evt-test-001` derived from the event id. -/
def db0 : DB := (insert_event ⟨[], []⟩ "evt-test-001" "ej" "/tmp/test_clip.mp4" 0).1

/-- The pending-upload row of `db0`, as handed to `process_upload`. -/
def up0 : PendingUploadRow :=
  ⟨"upload-evt-test-001", "evt-test-001", "/tmp/test_clip.mp4", 0, none,
   "PENDING_UPLOAD", none, none⟩

/-- A pending-upload row whose clip is not an `.mp4` file. -/
def upAvi : PendingUploadRow :=
  ⟨"upload-evt-avi", "evt-avi", "/tmp/clip.avi", 0, none,
   "PENDING_UPLOAD", none, none⟩

/-- Environment of a fully successful transaction in which the presign
response carries a server-chosen `upload_id` (`mock-upload-1`) different
from the local one — exactly what `mock_central_server.py` returns. -/
def envSrvId : UploadEnv :=
  ⟨true, "cs1",
   StepOutcome.ok ⟨some "http://m/u1", some "https://cdn/u1", some "mock-upload-1"⟩,
   StepOutcome.ok (), StepOutcome.ok (), true, StepOutcome.ok (), 0⟩

/-- Environment of a fully successful transaction whose presign response
carries no `upload_id` key. -/
def envOkPlain : UploadEnv :=
  ⟨true, "cs1",
   StepOutcome.ok ⟨some "http://m/u1", some "https://cdn/u1", none⟩,
   StepOutcome.ok (), StepOutcome.ok (), true, StepOutcome.ok (), 0⟩

/-- Environment whose presign response parses but lacks `upload_url`. -/
def envMissingUrl : UploadEnv :=
  ⟨true, "cs1",
   StepOutcome.ok ⟨none, some "https://cdn/u1", none⟩,
   StepOutcome.ok (), StepOutcome.ok (), true, StepOutcome.ok (), 0⟩

/-- A store holding one event and one pending upload that already reached
`FAILED` with checksum `"aa"` and `attempts = 5`. -/
def dbF : DB :=
  ⟨[⟨"e1", "ej", "PENDING_UPLOAD", 0, 0⟩],
   [⟨"u1", "e1", "/x.mp4", 5, none, "FAILED", some "aa", none⟩]⟩

/-- A well-formed package manifest whose archive hashes to `"sha"`. -/
def pkg0 : PackageManifest :=
  ⟨some "mock-detector", some "v2.0", some "http://d/p.tgz", some "sha", some "sig"⟩

/-- Clean on-disk state before an install attempt. -/
def st0 : SyncState := ⟨false, false, [], []⟩

/-- Sync environment: download succeeds, checksum matches, extraction
fails before writing any file, reload would succeed. -/
def envExtractFail : SyncEnv :=
  ⟨DownloadOutcome.ok, some "sha", false, [], ["m.bin"], true⟩

/-- Sync environment: download succeeds but the archive hashes to a value
other than the manifest's `sha256`. -/
def envShaMismatch : SyncEnv :=
  ⟨DownloadOutcome.ok, some "other", true, [], ["m.bin"], true⟩

/-- Sync environment: everything succeeds except the reload POST. -/
def envReloadFail : SyncEnv :=
  ⟨DownloadOutcome.ok, some "sha", true, [], ["m.bin"], false⟩

/-- Uploader environment in which the clip file does not exist. -/
def envNoFile : UploadEnv :=
  ⟨false, "cs1",
   StepOutcome.ok ⟨some "http://m/u1", some "https://cdn/u1", none⟩,
   StepOutcome.ok (), StepOutcome.ok (), true, StepOutcome.ok (), 0⟩

/-! ### Helper lemmas about the store update -/

/-- The compiled UPDATE statement never changes a row's primary key. -/
theorem applyRow_upload_id (r : PendingUploadRow) (status : String) (now : Nat)
    (kw : UpdateKwargs) : (applyRow r status now kw).upload_id = r.upload_id := rfl

/-- The compiled UPDATE statement always writes the requested status. -/
theorem applyRow_status (r : PendingUploadRow) (status : String) (now : Nat)
    (kw : UpdateKwargs) : (applyRow r status now kw).status = status := rfl

/-- Every row of the table after `applyUpdate` is the image of a unique
original row: updated when its id matches, untouched otherwise. -/
theorem mem_applyUpdate_pending (db : DB) (uid status : String) (now : Nat)
    (kw : UpdateKwargs) (r' : PendingUploadRow)
    (h : r' ∈ (applyUpdate db uid status now kw).pending_uploads) :
    ∃ r ∈ db.pending_uploads,
      r' = (if r.upload_id == uid then applyRow r status now kw else r) := by
  simp only [applyUpdate] at h
  obtain ⟨r, hr, hfr⟩ := List.mem_map.mp h
  exact ⟨r, hr, hfr.symm⟩

/-- After a successful `update_upload_status`, every row carrying the
targeted id is the updated image of an original row. -/
theorem mem_update_ok_matching (db : DB) (uid status : String) (now : Nat)
    (kw : UpdateKwargs) (db' : DB) (r' : PendingUploadRow)
    (h : update_upload_status db uid status now kw = Except.ok db')
    (hmem : r' ∈ db'.pending_uploads) (hid : r'.upload_id = uid) :
    ∃ r ∈ db.pending_uploads, r' = applyRow r status now kw := by
  unfold update_upload_status at h
  split at h
  · exact absurd h (by simp)
  · have hdb : applyUpdate db uid status now kw = db' := Except.ok.inj h
    subst hdb
    obtain ⟨r, hr, hfr⟩ := mem_applyUpdate_pending db uid status now kw r' hmem
    by_cases hc : (r.upload_id == uid) = true
    · exact ⟨r, hr, by rw [hfr, if_pos hc]⟩
    · rw [hfr, if_neg hc] at hid
      exact absurd (beq_iff_eq.mpr hid) hc

/-- Looking up the targeted id after `applyUpdate` returns the updated
image of the row the lookup found before. -/
theorem statusOf_applyUpdate_self (db : DB) (uid status : String) (now : Nat)
    (kw : UpdateKwargs) (r : PendingUploadRow)
    (h : findUpload db uid = some r) :
    statusOf (applyUpdate db uid status now kw) uid = some status := by
  have hfun : ((fun x : PendingUploadRow => x.upload_id == uid) ∘
      (fun x : PendingUploadRow =>
        if x.upload_id == uid then applyRow x status now kw else x))
      = (fun x : PendingUploadRow => x.upload_id == uid) := by
    funext x
    by_cases hx : (x.upload_id == uid) = true
    · simp [Function.comp, hx, applyRow]
    · simp [Function.comp, hx]
  unfold findUpload at h
  have hpr := List.find?_some h
  simp only [] at hpr
  unfold statusOf findUpload
  simp only [applyUpdate]
  rw [List.find?_map, hfun, h]
  simp [applyRow, beq_iff_eq.mp hpr]

/-- An update whose id matches no row leaves the whole store untouched
(and, matching zero rows, cannot violate the `NOT NULL` constraint). -/
theorem applyUpdate_no_match (db : DB) (uid status : String) (now : Nat)
    (kw : UpdateKwargs)
    (h : ∀ r ∈ db.pending_uploads, (r.upload_id == uid) = false) :
    applyUpdate db uid status now kw = db := by
  have hmap : db.pending_uploads.map
      (fun r => if r.upload_id == uid then applyRow r status now kw else r)
      = db.pending_uploads := by
    have h1 : ∀ r ∈ db.pending_uploads,
        (if r.upload_id == uid then applyRow r status now kw else r) = id r := by
      intro r hr
      simp [h r hr]
    rw [List.map_congr_left h1, List.map_id]
  have hfind : db.pending_uploads.find? (fun r => r.upload_id == uid) = none :=
    List.find?_eq_none.mpr (fun r hr => by simp [h r hr])
  simp only [applyUpdate, hmap, hfind]
  cases db with
  | mk evs pus => simp

/-! ### C10 -/

/-- C10: calling `update_upload_status` with an `upload_id` for which no
`PendingUpload` row exists completes without raising and leaves both the
`pending_uploads` and `events` tables entirely unchanged. -/
theorem c10_update_unknown_id_is_noop (db : DB) (uid status : String) (now : Nat)
    (kw : UpdateKwargs)
    (h : ∀ r ∈ db.pending_uploads, r.upload_id ≠ uid) :
    update_upload_status db uid status now kw = Except.ok db := by
  have hb : ∀ r ∈ db.pending_uploads, (r.upload_id == uid) = false := by
    intro r hr
    exact beq_eq_false_iff_ne.mpr (h r hr)
  have hany : db.pending_uploads.any (fun r => r.upload_id == uid) = false := by
    rw [List.any_eq_false]
    intro r hr
    simp [hb r hr]
  have hcond : ¬(kw.attempts = some Option.none
      ∧ db.pending_uploads.any (fun r => r.upload_id == uid) = true) := by
    rintro ⟨h1, h2⟩
    rw [hany] at h2
    exact Bool.false_ne_true h2
  unfold update_upload_status
  rw [if_neg hcond, applyUpdate_no_match db uid status now kw hb]

/-- Witness for C10: a terminal-status update with explicit SQL `NULL`
kwargs against a store whose only row has a different id. -/
theorem c10_update_unknown_id_is_noop_witness :
    update_upload_status dbF "nosuch" "FAILED" 3
        ⟨some Option.none, some Option.none, some Option.none⟩ = Except.ok dbF :=
  c10_update_unknown_id_is_noop dbF "nosuch" "FAILED" 3
    ⟨some Option.none, some Option.none, some Option.none⟩ (by decide)

/-! ### C8 -/

/-- C8: when the clip file does not exist, `process_upload` issues exactly
one store update, moving the row to `FAILED`, with no network request
(no presign, PUT, complete or metadata) and no retry sleep. -/
theorem c8_missing_file_failed_no_network (cfg : UploadCfg)
    (upload : PendingUploadRow) (env : UploadEnv) (db : DB) (now : Nat)
    (r : PendingUploadRow)
    (hmiss : env.fileExists = false)
    (hrow : findUpload db upload.upload_id = some r) :
    process_upload cfg upload env
      = [Action.dbUpdate upload.upload_id "FAILED" noKwargs]
    ∧ (process_upload cfg upload env).filter Action.isNetwork = []
    ∧ (process_upload cfg upload env).filter Action.isSleep = []
    ∧ statusOf (runActions db now (process_upload cfg upload env)) upload.upload_id
      = some "FAILED" := by
  have htr : process_upload cfg upload env
      = [Action.dbUpdate upload.upload_id "FAILED" noKwargs] := by
    simp [process_upload, hmiss]
  refine ⟨htr, ?_, ?_, ?_⟩
  · rw [htr]; rfl
  · rw [htr]; rfl
  · rw [htr]
    exact statusOf_applyUpdate_self db upload.upload_id "FAILED" now noKwargs r hrow

/-- Witness for C8 at the integration-test fixtures with the clip file
removed. -/
theorem c8_missing_file_failed_no_network_witness :
    process_upload cfg0 up0 envNoFile
      = [Action.dbUpdate up0.upload_id "FAILED" noKwargs]
    ∧ (process_upload cfg0 up0 envNoFile).filter Action.isNetwork = []
    ∧ (process_upload cfg0 up0 envNoFile).filter Action.isSleep = []
    ∧ statusOf (runActions db0 7 (process_upload cfg0 up0 envNoFile)) up0.upload_id
      = some "FAILED" :=
  c8_missing_file_failed_no_network cfg0 up0 envNoFile db0 7 up0
    (by decide) (by decide)

/-! ### C2 -/

/-- C2 counterexample: a row whose status is `FAILED` — not
`PENDING_UPLOAD` — still has its status overwritten to `PROCESSING` when the
transition is requested, so the update is not a compare-and-set on
`(upload_id, status=PENDING_UPLOAD)`. -/
theorem c2_no_cas_counterexample :
    statusOf dbF "u1" = some "FAILED"
    ∧ (update_upload_status dbF "u1" "PROCESSING" 3 noKwargs).toOption.bind
        (fun d => statusOf d "u1") = some "PROCESSING" := by
  decide

/-- C2 amended: `update_upload_status` is a single atomic UPDATE keyed by
`upload_id` alone — after a successful call requesting `PROCESSING`, every
row carrying that id has status `PROCESSING` whatever its previous status
was; there is no status guard in the WHERE clause. -/
theorem c2_processing_overwrites_any_status (db : DB) (uid : String) (now : Nat)
    (kw : UpdateKwargs) (db' : DB) (r' : PendingUploadRow)
    (h : update_upload_status db uid "PROCESSING" now kw = Except.ok db')
    (hmem : r' ∈ db'.pending_uploads) (hid : r'.upload_id = uid) :
    r'.status = "PROCESSING" := by
  obtain ⟨r, hr, hfr⟩ :=
    mem_update_ok_matching db uid "PROCESSING" now kw db' r' h hmem hid
  rw [hfr]
  rfl

/-- Witness for C2 at the `FAILED` row of `dbF`. -/
theorem c2_processing_overwrites_any_status_witness :
    (⟨"u1", "e1", "/x.mp4", 5, some 3, "PROCESSING", some "aa", none⟩
      : PendingUploadRow).status = "PROCESSING" :=
  c2_processing_overwrites_any_status dbF "u1" 3 noKwargs
    ⟨[⟨"e1", "ej", "PENDING_UPLOAD", 0, 0⟩],
     [⟨"u1", "e1", "/x.mp4", 5, some 3, "PROCESSING", some "aa", none⟩]⟩
    ⟨"u1", "e1", "/x.mp4", 5, some 3, "PROCESSING", some "aa", none⟩
    (by rfl) (by decide) (by decide)

/-! ### C3 -/

/-- C3 counterexample: the row's checksum is set to `"aa"`, yet a
`POST /events/mark_status` request that omits the checksum field (JSON
null) clears it to SQL NULL. -/
theorem c3_checksum_cleared_counterexample :
    checksumOf dbF "u1" = some (some "aa")
    ∧ (mark_event_status dbF 3 "u1" "PROCESSING" none none (some 1)).toOption.bind
        (fun d => checksumOf d "u1") = some none := by
  decide

/-- C3 amended: an update that does not pass `checksum` (all the Uploader's
non-`PROCESSING` updates) preserves every row's checksum, but
`mark_event_status` always passes it, overwriting the matched row's
checksum with the request value verbatim — `None` included, which clears a
previously set checksum. -/
theorem c3_checksum_write_behavior :
    (∀ db uid status now kw, kw.checksum = Option.none →
      (applyUpdate db uid status now kw).pending_uploads.map PendingUploadRow.checksum
        = db.pending_uploads.map PendingUploadRow.checksum)
    ∧ (∀ db now uid status fu c a db' r',
        mark_event_status db now uid status fu c a = Except.ok db' →
        r' ∈ db'.pending_uploads → r'.upload_id = uid → r'.checksum = c) := by
  constructor
  · intro db uid status now kw hkw
    simp only [applyUpdate, List.map_map]
    apply List.map_congr_left
    intro r hr
    by_cases hc : (r.upload_id == uid) = true
    · simp [Function.comp, hc, applyRow, hkw]
    · simp [Function.comp, hc]
  · intro db now uid status fu c a db' r' h hmem hid
    unfold mark_event_status at h
    split at h
    · obtain ⟨r, hr, hfr⟩ :=
        mem_update_ok_matching db uid status now ⟨some c, some fu, some a⟩ db' r' h hmem hid
      rw [hfr]
      rfl
    · exact absurd h (by simp)

/-- Witness for C3: an Uploader-style `FAILED` update without a checksum
kwarg leaves the checksum column of `dbF` untouched. -/
theorem c3_checksum_write_behavior_witness :
    (applyUpdate dbF "u1" "FAILED" 9 noKwargs).pending_uploads.map
        PendingUploadRow.checksum
      = dbF.pending_uploads.map PendingUploadRow.checksum :=
  c3_checksum_write_behavior.1 dbF "u1" "FAILED" 9 noKwargs rfl

/-! ### C7 -/

/-- Every store update issued by `_handle_failure` carries exactly
`attempts = upload.attempts + 1`. -/
theorem handle_failure_kwargs (cfg : UploadCfg) (upload : PendingUploadRow)
    (code : Int) (rand : ℚ) (uid status : String) (kw : UpdateKwargs)
    (h : Action.dbUpdate uid status kw ∈ handle_failure cfg upload code rand) :
    kw = kwAttempts (upload.attempts + 1) := by
  simp only [handle_failure] at h
  by_cases h1 : cfg.max_retries ≤ upload.attempts + 1
  · rw [if_pos h1] at h
    simp at h
    exact h.2.2
  · rw [if_neg h1] at h
    by_cases h2 : (500 : Int) ≤ code
    · rw [if_pos h2] at h
      simp at h
      exact h.2.2
    · rw [if_neg h2] at h
      simp at h
      exact h.2.2

/-- C7 counterexample: the row's `attempts` is 5, yet a
`POST /events/mark_status` request carrying `attempts=0` lowers it to 0. -/
theorem c7_attempts_lowered_counterexample :
    attemptsOf dbF "u1" = some 5
    ∧ (mark_event_status dbF 3 "u1" "PROCESSING" none none (some 0)).toOption.bind
        (fun d => attemptsOf d "u1") = some 0
    ∧ (0 : Int) < 5 := by
  decide

/-- C7 amended: `attempts` is non-decreasing under every update the
Uploader itself issues — each of its store updates either omits `attempts`
or sets it to the row's previous `attempts + 1` — but the Aggregator's
`mark_status` endpoint writes the client-supplied `attempts` value
verbatim, so a request carrying a smaller value lowers it. -/
theorem c7_attempts_write_behavior :
    (∀ cfg upload env uid status kw,
      Action.dbUpdate uid status kw ∈ process_upload cfg upload env →
      kw.attempts = Option.none ∨ kw = kwAttempts (upload.attempts + 1))
    ∧ (∀ db now uid status fu c a db' r',
        mark_event_status db now uid status fu c (some a) = Except.ok db' →
        r' ∈ db'.pending_uploads → r'.upload_id = uid → r'.attempts = a) := by
  constructor
  · intro cfg upload env uid status kw h
    simp only [process_upload] at h
    split at h
    · simp at h
      rw [h.2.2]
      exact Or.inl rfl
    · rw [List.mem_cons] at h
      rcases h with h | h
      · exact absurd h (by simp)
      · split at h
        · exact Or.inr (handle_failure_kwargs _ _ _ _ _ _ _ h)
        · exact Or.inr (handle_failure_kwargs _ _ _ _ _ _ _ h)
        · split at h
          · exact Or.inr (handle_failure_kwargs _ _ _ _ _ _ _ h)
          · rw [List.mem_cons] at h
            rcases h with h | h
            · simp at h
              rw [h.2.2]
              exact Or.inl rfl
            · rw [List.mem_cons] at h
              rcases h with h | h
              · exact absurd h (by simp)
              · split at h
                · exact Or.inr (handle_failure_kwargs _ _ _ _ _ _ _ h)
                · exact Or.inr (handle_failure_kwargs _ _ _ _ _ _ _ h)
                · rw [List.mem_cons] at h
                  rcases h with h | h
                  · exact absurd h (by simp)
                  · split at h
                    · exact Or.inr (handle_failure_kwargs _ _ _ _ _ _ _ h)
                    · exact Or.inr (handle_failure_kwargs _ _ _ _ _ _ _ h)
                    · split at h
                      · exact Or.inr (handle_failure_kwargs _ _ _ _ _ _ _ h)
                      · rw [List.mem_cons] at h
                        rcases h with h | h
                        · exact absurd h (by simp)
                        · split at h
                          · exact Or.inr (handle_failure_kwargs _ _ _ _ _ _ _ h)
                          · exact Or.inr (handle_failure_kwargs _ _ _ _ _ _ _ h)
                          · simp at h
                            rw [h.2.2]
                            exact Or.inl rfl
  · intro db now uid status fu c a db' r' h hmem hid
    unfold mark_event_status at h
    split at h
    · obtain ⟨r, hr, hfr⟩ :=
        mem_update_ok_matching db uid status now ⟨some c, some fu, some (some a)⟩
          db' r' h hmem hid
      rw [hfr]
      rfl
    · exact absurd h (by simp)

/-- Witness for C7: a `mark_status` request with `attempts=0` writes 0
into the row. -/
theorem c7_attempts_write_behavior_witness :
    (⟨"u1", "e1", "/x.mp4", 0, some 3, "PROCESSING", none, none⟩
      : PendingUploadRow).attempts = 0 :=
  c7_attempts_write_behavior.2 dbF 3 "u1" "PROCESSING" none none 0
    ⟨[⟨"e1", "ej", "PENDING_UPLOAD", 0, 0⟩],
     [⟨"u1", "e1", "/x.mp4", 0, some 3, "PROCESSING", none, none⟩]⟩
    ⟨"u1", "e1", "/x.mp4", 0, some 3, "PROCESSING", none, none⟩
    (by rfl) (by decide) (by decide)

/-! ### C4 -/

/-- C4 counterexample: a presign response missing `upload_url`, hit at
`attempts = 0` with `max_retries = 3`, sends the row back to
`PENDING_UPLOAD` after a backoff sleep — not to terminal `FAILED`. -/
theorem c4_malformed_presign_counterexample :
    process_upload cfg0 up0 envMissingUrl =
      [Action.presignPost "evt-test-001" "video/mp4",
       Action.sleepFor (backoff_wait_time 1 1 0),
       Action.dbUpdate "upload-evt-test-001" "PENDING_UPLOAD" (kwAttempts 1)]
    ∧ backoff_wait_time 1 1 0 = 1
    ∧ statusOf (runActions db0 7 (process_upload cfg0 up0 envMissingUrl))
        "upload-evt-test-001" = some "PENDING_UPLOAD"
    ∧ statusOf (runActions db0 7 (process_upload cfg0 up0 envMissingUrl))
        "upload-evt-test-001" ≠ some "FAILED" := by
  refine ⟨rfl, ?_, by decide, by decide⟩
  simp [backoff_wait_time]

/-- C4 amended: a presign response missing (or empty in) `upload_url` or
`final_url` raises `ValueError`, which the catch-all maps to code 500 and
treats as retryable: while `attempts + 1 < max_retries` the row is returned
to `PENDING_UPLOAD` after a backoff sleep with `attempts` incremented; it
reaches `FAILED` only through retry exhaustion, never as an immediate
permanent error. -/
theorem c4_malformed_presign_is_retryable (cfg : UploadCfg)
    (upload : PendingUploadRow) (env : UploadEnv) (resp : PresignResponse)
    (hex : env.fileExists = true)
    (hp : env.presign = StepOutcome.ok resp)
    (hbad : truthy resp.upload_url = false ∨ truthy resp.final_url = false)
    (hlt : upload.attempts + 1 < cfg.max_retries) :
    process_upload cfg upload env =
      [Action.presignPost upload.event_id (presign_content_type upload.filepath),
       Action.sleepFor
         (backoff_wait_time cfg.retry_backoff_seconds (upload.attempts + 1) env.rand),
       Action.dbUpdate upload.upload_id "PENDING_UPLOAD"
         (kwAttempts (upload.attempts + 1))] := by
  obtain ⟨fe, sha, pres, putr, compr, ef, metar, rnd⟩ := env
  simp only at hex hp
  subst hex
  subst hp
  simp only [process_upload]
  rw [if_neg (by simp), if_pos hbad]
  simp only [handle_failure]
  rw [if_neg (not_le.mpr hlt), if_pos (by norm_num : (500 : Int) ≤ 500)]

/-- Witness for C4 at the fixtures of `c4_malformed_presign_counterexample`. -/
theorem c4_malformed_presign_is_retryable_witness :
    process_upload cfg0 up0 envMissingUrl =
      [Action.presignPost up0.event_id (presign_content_type up0.filepath),
       Action.sleepFor
         (backoff_wait_time cfg0.retry_backoff_seconds (up0.attempts + 1)
           envMissingUrl.rand),
       Action.dbUpdate up0.upload_id "PENDING_UPLOAD"
         (kwAttempts (up0.attempts + 1))] :=
  c4_malformed_presign_is_retryable cfg0 up0 envMissingUrl
    ⟨none, some "https://cdn/u1", none⟩ (by decide) (by rfl)
    (by decide) (by decide)

/-! ### C9 -/

/-- C9 counterexample: for the non-`.mp4` clip `/tmp/clip.avi`, the presign
payload's content type is `application/octet-stream`, but the PUT is
performed with a `Content-Type: video/mp4` header; no PUT with
`application/octet-stream` occurs. -/
theorem c9_put_content_type_counterexample :
    Action.presignPost "evt-avi" "application/octet-stream"
        ∈ process_upload cfg0 upAvi envOkPlain
    ∧ Action.putFile "video/mp4" "cs1" ∈ process_upload cfg0 upAvi envOkPlain
    ∧ Action.putFile "application/octet-stream" "cs1"
        ∉ process_upload cfg0 upAvi envOkPlain := by
  decide

/-- C9 amended: the extension-dependent content type (`video/mp4` for
`.mp4`, else `application/octet-stream`) is sent only as the presign
request's `content_type` field; the PUT itself always sends a constant
`Content-Type: video/mp4` header, and its `x-amz-checksum-sha256` header
carries the SHA-256 computed over the file. -/
theorem c9_put_headers (cfg : UploadCfg) (upload : PendingUploadRow)
    (env : UploadEnv) (resp : PresignResponse)
    (hex : env.fileExists = true)
    (hp : env.presign = StepOutcome.ok resp)
    (hu : truthy resp.upload_url = true) (hf : truthy resp.final_url = true) :
    Action.presignPost upload.event_id
        (if (pathSuffix upload.filepath).data.map charLower = ".mp4".data
         then "video/mp4" else "application/octet-stream")
      ∈ process_upload cfg upload env
    ∧ Action.putFile "video/mp4" env.fileSha256 ∈ process_upload cfg upload env := by
  obtain ⟨fe, sha, pres, putr, compr, ef, metar, rnd⟩ := env
  simp only at hex hp
  subst hex
  subst hp
  simp only [process_upload]
  rw [if_neg (by simp)]
  have hcond : ¬(truthy resp.upload_url = false ∨ truthy resp.final_url = false) := by
    rw [hu, hf]
    simp
  rw [if_neg hcond]
  constructor
  · exact List.mem_cons_self _ _
  · exact List.mem_cons_of_mem _ (List.mem_cons_of_mem _ (List.mem_cons_self _ _))

/-- Witness for C9 at the `.avi` fixture. -/
theorem c9_put_headers_witness :
    Action.presignPost upAvi.event_id
        (if (pathSuffix upAvi.filepath).data.map charLower = ".mp4".data
         then "video/mp4" else "application/octet-stream")
      ∈ process_upload cfg0 upAvi envOkPlain
    ∧ Action.putFile "video/mp4" envOkPlain.fileSha256
        ∈ process_upload cfg0 upAvi envOkPlain :=
  c9_put_headers cfg0 upAvi envOkPlain
    ⟨some "http://m/u1", some "https://cdn/u1", none⟩
    (by decide) (by rfl) (by decide) (by decide)

/-! ### C1 -/

/-- C1: when the presign response carries a server-chosen `upload_id`
(`mock-upload-1`, as the repository's own mock server returns) different
from the local id, the `PROCESSING` and `UPLOADED` store updates are keyed
by the server id and match no row: after a fully successful transaction
the row is still keyed by the local id, still `PENDING_UPLOAD`, with no
checksum persisted and the companion event not mirrored — and the complete
and metadata payloads still carry the local id, not the server id.  This
is the behaviour the integration test
`test_uploader_end_to_end_success` asserts against (it expects the local
row to reach `UPLOADED`). -/
theorem c1_server_id_divergence :
    statusOf (runActions db0 7 (process_upload cfg0 up0 envSrvId))
        "upload-evt-test-001" = some "PENDING_UPLOAD"
    ∧ checksumOf (runActions db0 7 (process_upload cfg0 up0 envSrvId))
        "upload-evt-test-001" = some none
    ∧ findUpload (runActions db0 7 (process_upload cfg0 up0 envSrvId))
        "mock-upload-1" = none
    ∧ eventStatusOf (runActions db0 7 (process_upload cfg0 up0 envSrvId))
        "evt-test-001" = some "PENDING_UPLOAD"
    ∧ Action.dbUpdate "mock-upload-1" "PROCESSING" (kwChecksum "cs1")
        ∈ process_upload cfg0 up0 envSrvId
    ∧ Action.dbUpdate "mock-upload-1" "UPLOADED" (kwFinalUrl "https://cdn/u1")
        ∈ process_upload cfg0 up0 envSrvId
    ∧ Action.completePost "upload-evt-test-001" "evt-test-001" "https://cdn/u1" "cs1"
        ∈ process_upload cfg0 up0 envSrvId
    ∧ Action.metadataPost "evt-test-001" "upload-evt-test-001" "https://cdn/u1"
        ∈ process_upload cfg0 up0 envSrvId := by
  decide

/-! ### C6 -/

/-- C6 counterexample: with `retry_backoff_seconds = 4000` and attempt 1,
the computed sleep is `min(4000·2⁰ + 0, 3600) = 3600 < B`, violating the
claimed lower bound `B ≤ sleep`. -/
theorem c6_backoff_counterexample :
    handle_failure cfgBig up0 503 0 =
      [Action.sleepFor (backoff_wait_time 4000 1 0),
       Action.dbUpdate "upload-evt-test-001" "PENDING_UPLOAD" (kwAttempts 1)]
    ∧ backoff_wait_time 4000 1 0 = 3600
    ∧ ¬ ((4000 : ℚ) ≤ backoff_wait_time 4000 1 0) := by
  refine ⟨rfl, ?_, ?_⟩
  · norm_num [backoff_wait_time, min_def]
  · norm_num [backoff_wait_time, min_def]

/-- C6 amended: a retryable failure at attempt count `a` (with
`a + 1 < max_retries` and a 5xx code) sleeps exactly
`min(B·2^((a+1)-1) + rand·B, 3600)` and returns the row to
`PENDING_UPLOAD`; the sleep is bounded below by `min(B, 3600)` — the
claimed lower bound `B` itself holds only when `B ≤ 3600` — and above by
`min(B·2^(n-1) + B, 3600)` as claimed. -/
theorem c6_backoff_sleep_formula_and_bounds (cfg : UploadCfg)
    (upload : PendingUploadRow) (code : Int) (rand : ℚ)
    (ha : 0 ≤ upload.attempts) (hlt : upload.attempts + 1 < cfg.max_retries)
    (hcode : 500 ≤ code) (hr0 : 0 ≤ rand) (hr1 : rand < 1)
    (hb : 0 ≤ cfg.retry_backoff_seconds) :
    handle_failure cfg upload code rand =
      [Action.sleepFor
         (backoff_wait_time cfg.retry_backoff_seconds (upload.attempts + 1) rand),
       Action.dbUpdate upload.upload_id "PENDING_UPLOAD"
         (kwAttempts (upload.attempts + 1))]
    ∧ min cfg.retry_backoff_seconds 3600
        ≤ backoff_wait_time cfg.retry_backoff_seconds (upload.attempts + 1) rand
    ∧ backoff_wait_time cfg.retry_backoff_seconds (upload.attempts + 1) rand
        ≤ min (cfg.retry_backoff_seconds * (2 : ℚ) ^ upload.attempts
              + cfg.retry_backoff_seconds) 3600 := by
  have hexp : upload.attempts + 1 - 1 = upload.attempts := by omega
  have hpow : (1 : ℚ) ≤ (2 : ℚ) ^ upload.attempts := by
    obtain ⟨n, hn⟩ := Int.eq_ofNat_of_zero_le ha
    rw [hn, zpow_natCast]
    exact one_le_pow₀ (by norm_num)
  have hBle : cfg.retry_backoff_seconds
      ≤ cfg.retry_backoff_seconds * (2 : ℚ) ^ upload.attempts :=
    le_mul_of_one_le_right hb hpow
  have hjit0 : 0 ≤ rand * cfg.retry_backoff_seconds := mul_nonneg hr0 hb
  have hjitB : rand * cfg.retry_backoff_seconds ≤ cfg.retry_backoff_seconds := by
    calc rand * cfg.retry_backoff_seconds
        ≤ 1 * cfg.retry_backoff_seconds := mul_le_mul_of_nonneg_right hr1.le hb
      _ = cfg.retry_backoff_seconds := one_mul _
  refine ⟨?_, ?_, ?_⟩
  · simp only [handle_failure]
    rw [if_neg (not_le.mpr hlt), if_pos hcode]
  · unfold backoff_wait_time
    rw [hexp]
    apply le_min
    · calc min cfg.retry_backoff_seconds 3600
          ≤ cfg.retry_backoff_seconds := min_le_left _ _
        _ ≤ cfg.retry_backoff_seconds * (2 : ℚ) ^ upload.attempts := hBle
        _ ≤ cfg.retry_backoff_seconds * (2 : ℚ) ^ upload.attempts
              + rand * cfg.retry_backoff_seconds := le_add_of_nonneg_right hjit0
    · exact min_le_right _ _
  · unfold backoff_wait_time
    rw [hexp]
    exact min_le_min (add_le_add_left hjitB _) le_rfl

/-- Witness for C6 at `B = 1`, attempt 1, zero jitter. -/
theorem c6_backoff_sleep_formula_and_bounds_witness :
    handle_failure cfg0 up0 503 0 =
      [Action.sleepFor
         (backoff_wait_time cfg0.retry_backoff_seconds (up0.attempts + 1) 0),
       Action.dbUpdate up0.upload_id "PENDING_UPLOAD"
         (kwAttempts (up0.attempts + 1))]
    ∧ min cfg0.retry_backoff_seconds 3600
        ≤ backoff_wait_time cfg0.retry_backoff_seconds (up0.attempts + 1) 0
    ∧ backoff_wait_time cfg0.retry_backoff_seconds (up0.attempts + 1) 0
        ≤ min (cfg0.retry_backoff_seconds * (2 : ℚ) ^ up0.attempts
              + cfg0.retry_backoff_seconds) 3600 :=
  c6_backoff_sleep_formula_and_bounds cfg0 up0 503 0 (by decide) (by decide)
    (by decide) (by norm_num) (by norm_num) (by norm_num [cfg0])

/-! ### C5 -/

/-- C5 counterexample: a package that downloads and passes the checksum
but fails extraction leaves the staging archive on disk and has already
created the model directory — the install attempt is not rolled back. -/
theorem c5_extract_failure_counterexample :
    (process_package pkg0 envExtractFail st0).stagingPresent = true
    ∧ (process_package pkg0 envExtractFail st0).installDirExists = true
    ∧ st0.stagingPresent = false
    ∧ st0.installDirExists = false
    ∧ (process_package pkg0 envExtractFail st0).reloadPosts = [] := by
  decide

/-- C5 amended: only the checksum-mismatch path is transactional — it
removes the staging archive and leaves the model directory, installed
files and reload state untouched.  An extraction failure leaves the
staging archive present, the model directory created, and any partially
extracted files in place.  After a successful extraction the outcome is
the same whether the reload POST succeeds or fails: the files stay
installed, the reload was attempted, and the staging archive is removed. -/
theorem c5_package_install_behavior (pkg : PackageManifest) (env : SyncEnv)
    (st : SyncState) (c : String)
    (hv : manifestValid pkg = true)
    (hd : env.download = DownloadOutcome.ok)
    (hsha : env.shaResult = some c) :
    (c ≠ pkg.sha256.getD "" →
      process_package pkg env st
        = ⟨false, st.installDirExists, st.installedFiles, st.reloadPosts⟩)
    ∧ (c = pkg.sha256.getD "" → env.extractOk = false →
      process_package pkg env st
        = ⟨true, true, st.installedFiles ++ env.extractPartialFiles, st.reloadPosts⟩)
    ∧ (c = pkg.sha256.getD "" → env.extractOk = true →
      process_package pkg env st
        = ⟨false, true, st.installedFiles ++ env.extractedFiles,
           st.reloadPosts ++ [pkg.version.getD ""]⟩) := by
  obtain ⟨dl, sha, exok, epf, eef, rok⟩ := env
  simp only at hd hsha
  subst hd
  subst hsha
  simp only [process_package]
  rw [if_neg (by simp [hv])]
  refine ⟨?_, ?_, ?_⟩
  · intro hne
    rw [if_pos (bne_iff_ne.mpr hne)]
  · intro heq hext
    subst heq
    subst hext
    rw [if_neg (by simp), if_pos rfl]
  · intro heq hext
    subst heq
    subst hext
    rw [if_neg (by simp), if_neg (by simp)]

/-- Witness for C5: the checksum-mismatch run against the clean state. -/
theorem c5_package_install_behavior_witness :
    process_package pkg0 envShaMismatch st0
      = ⟨false, st0.installDirExists, st0.installedFiles, st0.reloadPosts⟩ :=
  (c5_package_install_behavior pkg0 envShaMismatch st0 "other"
    (by decide) (by rfl) (by rfl)).1 (by decide)

end VSS
